import Mathlib

/-!
Verification of the conversion core of `unit_converter.py` (a Streamlit
unit-conversion utility).

The program's core is:
  * a constant nested dictionary `CONVERSIONS` mapping category names to
    unit names and, for linear categories, a numeric scale factor
    (Temperature instead maps each unit to a string tag);
  * `convert_temperature(value, from_unit, to_unit)`, the two-step affine
    temperature conversion;
  * the Convert button handler, which dispatches on
    `category == "Temperature"` and otherwise computes
    `value * CONVERSIONS[category][from_unit] / CONVERSIONS[category][to_unit]`.

We embed the numeric values as exact rationals (`ℚ`): every literal in the
Python table is a decimal literal, represented here by the exact rational it
denotes.  Python dictionaries are embedded as association lists keyed by
`String`, looked up by `alookup` (first match; all keys in the source table
are distinct).  A failed dictionary lookup in Python raises `KeyError`,
embedded as `Except.error ConvError.NotFound`.
-/

set_option autoImplicit false

namespace UnitConverter

/-- A value stored in the `CONVERSIONS` dictionary: linear categories store a
numeric scale factor; the Temperature category stores a string tag. -/
inductive UnitVal where
  | factor (q : ℚ)
  | tag (s : String)
deriving DecidableEq

/-- The only error the conversion core can signal: a category or unit
identifier not present in the table (Python `KeyError`). -/
inductive ConvError where
  | NotFound
deriving DecidableEq

/-- Association-list lookup, embedding Python dictionary access `d[k]`
(returning `none` where Python raises `KeyError`). -/
def alookup {α : Type} (k : String) : List (String × α) → Option α
  | [] => none
  | (k', v) :: rest => if k = k' then some v else alookup k rest

/-- The constant `CONVERSIONS` table of `unit_converter.py`, transcribed
entry for entry; each decimal literal is the exact rational it denotes. -/
def CONVERSIONS : List (String × List (String × UnitVal)) :=
  [ ("Length",
      [ ("Meters", .factor 1),
        ("Kilometers", .factor 1000),
        ("Centimeters", .factor 0.01),
        ("Millimeters", .factor 0.001),
        ("Miles", .factor 1609.34),
        ("Yards", .factor 0.9144),
        ("Feet", .factor 0.3048),
        ("Inches", .factor 0.0254),
        ("Nautical Miles", .factor 1852) ]),
    ("Weight/Mass",
      [ ("Kilograms", .factor 1),
        ("Grams", .factor 0.001),
        ("Milligrams", .factor 0.000001),
        ("Metric Tons", .factor 1000),
        ("Pounds", .factor 0.453592),
        ("Ounces", .factor 0.0283495),
        ("Stone", .factor 6.35029) ]),
    ("Temperature",
      [ ("Celsius", .tag "C"),
        ("Fahrenheit", .tag "F"),
        ("Kelvin", .tag "K") ]),
    ("Area",
      [ ("Square Meters", .factor 1),
        ("Square Kilometers", .factor 1000000),
        ("Square Miles", .factor 2589988.11),
        ("Square Yards", .factor 0.836127),
        ("Square Feet", .factor 0.092903),
        ("Acres", .factor 4046.86),
        ("Hectares", .factor 10000) ]),
    ("Volume",
      [ ("Cubic Meters", .factor 1),
        ("Liters", .factor 0.001),
        ("Milliliters", .factor 0.000001),
        ("Cubic Feet", .factor 0.0283168),
        ("Cubic Inches", .factor 0.0000163871),
        ("Gallons (US)", .factor 0.00378541),
        ("Quarts (US)", .factor 0.000946353),
        ("Pints (US)", .factor 0.000473176),
        ("Fluid Ounces (US)", .factor 0.0000295735) ]),
    ("Speed",
      [ ("Meters per Second", .factor 1),
        ("Kilometers per Hour", .factor 0.277778),
        ("Miles per Hour", .factor 0.44704),
        ("Knots", .factor 0.514444),
        ("Feet per Second", .factor 0.3048) ]),
    ("Time",
      [ ("Seconds", .factor 1),
        ("Minutes", .factor 60),
        ("Hours", .factor 3600),
        ("Days", .factor 86400),
        ("Weeks", .factor 604800),
        ("Months", .factor 2592000),
        ("Years", .factor 31536000) ]),
    ("Digital Storage",
      [ ("Bytes", .factor 1),
        ("Kilobytes", .factor 1024),
        ("Megabytes", .factor 1048576),
        ("Gigabytes", .factor 1073741824),
        ("Terabytes", .factor 1099511627776) ]),
    ("Energy",
      [ ("Joules", .factor 1),
        ("Kilojoules", .factor 1000),
        ("Calories", .factor 4.184),
        ("Kilocalories", .factor 4184),
        ("Watt-hours", .factor 3600),
        ("Kilowatt-hours", .factor 3600000),
        ("Electron-volts", .factor 1.602177e-19) ]),
    ("Pressure",
      [ ("Pascal", .factor 1),
        ("Kilopascal", .factor 1000),
        ("Bar", .factor 100000),
        ("PSI", .factor 6894.76),
        ("Atmosphere", .factor 101325),
        ("Millimeter of Mercury", .factor 133.322) ]) ]

/-- `convert_temperature(value, from_unit, to_unit)` of `unit_converter.py`:
normalize to Celsius by the first `if`-chain, then convert to the target by
the second. -/
def convert_temperature (value : ℚ) (from_unit to_unit : String) : ℚ :=
  let celsius :=
    if from_unit = "Fahrenheit" then (value - 32) * 5 / 9
    else if from_unit = "Kelvin" then value - 273.15
    else value
  if to_unit = "Fahrenheit" then (celsius * 9 / 5) + 32
  else if to_unit = "Kelvin" then celsius + 273.15
  else celsius

/-- The Convert button handler of `unit_converter.py`, parameterized by the
table it reads (the Python code reads the global `CONVERSIONS`): if the
category is `"Temperature"` it calls `convert_temperature` (no table lookup
occurs); otherwise it computes
`value * table[category][from_unit] / table[category][to_unit]`, where a
missing key raises `KeyError` (`ConvError.NotFound`).  The `tag` fallthrough
in the non-Temperature branch is unreachable on the actual `CONVERSIONS`
table (only Temperature stores tags; see `table_no_tags`). -/
def convertWith (table : List (String × List (String × UnitVal)))
    (category from_unit to_unit : String) (value : ℚ) : Except ConvError ℚ :=
  if category = "Temperature" then
    .ok (convert_temperature value from_unit to_unit)
  else
    match alookup category table with
    | none => .error .NotFound
    | some us =>
      match alookup from_unit us, alookup to_unit us with
      | some (.factor f), some (.factor t) => .ok (value * f / t)
      | _, _ => .error .NotFound

/-- The conversion engine on the program's actual table. -/
def convert (category from_unit to_unit : String) (value : ℚ) :
    Except ConvError ℚ :=
  convertWith CONVERSIONS category from_unit to_unit value

/-- The scale factor stored for unit `u` of `category` in the conversion
table (`none` when the category or unit is absent, or the entry is a
temperature tag). -/
def factor (category u : String) : Option ℚ :=
  match alookup category CONVERSIONS with
  | none => none
  | some us =>
    match alookup u us with
    | some (.factor q) => some q
    | _ => none

/-- `list(CONVERSIONS.keys())`: the categories, in table order. -/
def categories : List String := CONVERSIONS.map (·.1)

/-- `list(CONVERSIONS[category].keys())`: the units of a category, in table
order; `NotFound` when the category is absent. -/
def units (category : String) : Except ConvError (List String) :=
  match alookup category CONVERSIONS with
  | none => .error .NotFound
  | some us => .ok (us.map (·.1))

/-- `u` names a unit of `category` in the conversion table. -/
def isUnitOf (category u : String) : Bool :=
  match alookup category CONVERSIONS with
  | none => false
  | some us => (alookup u us).isSome

/-- The specification's first temperature step, written from the spec text:
normalize `value` to Celsius according to `from_unit`. -/
def spec_toCelsius (value : ℚ) (from_unit : String) : ℚ :=
  if from_unit = "Fahrenheit" then (value - 32) * 5 / 9
  else if from_unit = "Kelvin" then value - 273.15
  else value

/-- The specification's second temperature step, written from the spec text:
convert a Celsius value to `to_unit`. -/
def spec_fromCelsius (celsius : ℚ) (to_unit : String) : ℚ :=
  if to_unit = "Fahrenheit" then (celsius * 9 / 5) + 32
  else if to_unit = "Kelvin" then celsius + 273.15
  else celsius

/-- The failure condition asserted by the specification for `convert`: the
category is absent from the table, or either unit is absent from that
category's unit set. -/
def specNotFoundCond (category from_unit to_unit : String) : Prop :=
  match alookup category CONVERSIONS with
  | none => True
  | some us => alookup from_unit us = none ∨ alookup to_unit us = none

/-- The process-wide state visible to the conversion engine: the conversion
table, constructed once at startup.  (The Python engine reads the global
`CONVERSIONS` and nothing else; widget state belongs to the excluded
presentation layer.) -/
structure AppState where
  conversions : List (String × List (String × UnitVal))

/-- The state at startup: the table as initialized in the source. -/
def initState : AppState := ⟨CONVERSIONS⟩

/-- The Convert handler as a state-passing operation: it reads the table
from the state and returns the state unchanged together with the result. -/
def convertApp (s : AppState) (category from_unit to_unit : String)
    (value : ℚ) : AppState × Except ConvError ℚ :=
  (s, convertWith s.conversions category from_unit to_unit value)

/-- A successful association-list lookup yields a member of the list. -/
theorem alookup_mem {α : Type} {k : String} {l : List (String × α)} {v : α}
    (h : alookup k l = some v) : (k, v) ∈ l := by
  induction l with
  | nil => simp [alookup] at h
  | cons p rest ih =>
    rw [alookup] at h
    split at h
    · rename_i heq
      simp at h
      subst heq h
      exact List.mem_cons_self _ _
    · exact List.mem_cons_of_mem _ (ih h)

/-- Every scale factor stored anywhere in the table is strictly positive. -/
theorem table_pos :
    CONVERSIONS.Forall (fun p =>
      p.2.Forall (fun e => ∀ q, e.2 = UnitVal.factor q → 0 < q)) := by
  simp [CONVERSIONS, List.Forall]
  norm_num

/-- Only the Temperature category stores tag entries. -/
theorem table_no_tags :
    CONVERSIONS.Forall (fun p => p.1 = "Temperature" ∨
      p.2.Forall (fun e => ∀ s, e.2 ≠ UnitVal.tag s)) := by
  simp [CONVERSIONS, List.Forall]

/-- A factor entry reachable through the table is strictly positive. -/
theorem factor_pos_of_mem {c : String} {us : List (String × UnitVal)}
    (hc : (c, us) ∈ CONVERSIONS) {u : String} {q : ℚ}
    (hu : (u, UnitVal.factor q) ∈ us) : 0 < q :=
  (List.forall_iff_forall_mem.mp
    ((List.forall_iff_forall_mem.mp table_pos) _ hc)) _ hu q rfl

/-- A non-Temperature category of the table contains no tag entry. -/
theorem no_tag_of_mem {c : String} {us : List (String × UnitVal)}
    (hc : (c, us) ∈ CONVERSIONS) (hne : c ≠ "Temperature") {u s : String}
    (hu : (u, UnitVal.tag s) ∈ us) : False := by
  rcases (List.forall_iff_forall_mem.mp table_no_tags) _ hc with h | h
  · exact hne h
  · exact (List.forall_iff_forall_mem.mp h) _ hu s rfl

/-- The units of the Temperature category are exactly Celsius, Fahrenheit
and Kelvin. -/
theorem temp_unit_cases {u : String} (h : isUnitOf "Temperature" u = true) :
    u = "Celsius" ∨ u = "Fahrenheit" ∨ u = "Kelvin" := by
  by_cases h1 : u = "Celsius"
  · exact Or.inl h1
  by_cases h2 : u = "Fahrenheit"
  · exact Or.inr (Or.inl h2)
  by_cases h3 : u = "Kelvin"
  · exact Or.inr (Or.inr h3)
  simp [isUnitOf, CONVERSIONS, alookup, h1, h2, h3] at h

/-- On the Temperature category, `convert` is `convert_temperature`. -/
theorem convert_temp_step (x y : String) (v : ℚ) :
    convert "Temperature" x y v = .ok (convert_temperature v x y) := rfl

/-- Claim C1: for every linear category (category other than Temperature),
every pair of units `a`, `b` of that category carrying scale factors `fa`,
`fb`, and every value `v`, `convert` returns `v * fa / fb`; consequently
`convert` of `k * v` returns `k` times `convert` of `v` for every scalar
`k`. -/
theorem linear_convert_uses_factors (c a b : String) (v k : ℚ)
    (hc : c ≠ "Temperature") (fa fb : ℚ)
    (ha : factor c a = some fa) (hb : factor c b = some fb) :
    convert c a b v = .ok (v * fa / fb) ∧
    convert c a b (k * v) = .ok (k * (v * fa / fb)) := by
  unfold factor at ha hb
  unfold convert convertWith
  rw [if_neg hc]
  cases hcl : alookup c CONVERSIONS with
  | none => simp [hcl] at ha
  | some us =>
    simp only [hcl] at ha hb ⊢
    cases hau : alookup a us with
    | none => simp [hau] at ha
    | some ea =>
      simp only [hau] at ha ⊢
      cases ea with
      | tag s => simp at ha
      | factor f =>
        simp only [Option.some.injEq] at ha
        subst ha
        cases hbu : alookup b us with
        | none => simp [hbu] at hb
        | some eb =>
          simp only [hbu] at hb ⊢
          cases eb with
          | tag s => simp at hb
          | factor g =>
            simp only [Option.some.injEq] at hb
            subst hb
            rw [if_neg hc]
            refine ⟨rfl, ?_⟩
            simp only [Except.ok.injEq]
            ring

/-- Witness for `linear_convert_uses_factors` at Length, Kilometers to
Meters, `v = 2`, `k = 3`. -/
theorem linear_convert_uses_factors_witness :
    convert "Length" "Kilometers" "Meters" 2 = .ok (2 * 1000 / 1) ∧
    convert "Length" "Kilometers" "Meters" (3 * 2) = .ok (3 * (2 * 1000 / 1)) :=
  linear_convert_uses_factors "Length" "Kilometers" "Meters" 2 3 (by simp)
    1000 1 (by simp [factor, CONVERSIONS, alookup])
    (by simp [factor, CONVERSIONS, alookup])

/-- Claim C2: on the Temperature category, `convert` is computed in exactly
two steps, for every pair of unit names (including `a = b`): first the input
is normalized to Celsius (`spec_toCelsius`, the spec's step 1), then the
Celsius value is converted to the target unit (`spec_fromCelsius`, the
spec's step 2). -/
theorem temperature_two_step (a b : String) (v : ℚ) :
    convert "Temperature" a b v =
      .ok (spec_fromCelsius (spec_toCelsius v a) b) := rfl

/-- Claim C3: converting any unit of any category to itself returns the
input value exactly (in the exact rational semantics; the factor quotient is
1 for linear categories, and the Temperature round trip through Celsius
cancels exactly). -/
theorem convert_self_identity (c u : String) (v : ℚ)
    (h : isUnitOf c u = true) : convert c u u v = .ok v := by
  by_cases hc : c = "Temperature"
  · subst hc
    by_cases hF : u = "Fahrenheit"
    · simp [convert, convertWith, convert_temperature, hF]
    · by_cases hK : u = "Kelvin"
      · simp [convert, convertWith, convert_temperature, hK]
      · simp [convert, convertWith, convert_temperature, hF, hK]
  · unfold isUnitOf at h
    rw [convert, convertWith, if_neg hc]
    cases hcl : alookup c CONVERSIONS with
    | none => simp [hcl] at h
    | some us =>
      simp only [hcl] at h ⊢
      cases hu : alookup u us with
      | none => simp [hu] at h
      | some e =>
        cases e with
        | tag s =>
          exact absurd (no_tag_of_mem (alookup_mem hcl) hc (alookup_mem hu))
            not_false
        | factor q =>
          have hq : 0 < q :=
            factor_pos_of_mem (alookup_mem hcl) (alookup_mem hu)
          simp only [hu]
          simp only [Except.ok.injEq]
          rw [mul_div_assoc, div_self (ne_of_gt hq), mul_one]

/-- Witness for `convert_self_identity` at Length, Feet, `v = 7`. -/
theorem convert_self_identity_witness :
    convert "Length" "Feet" "Feet" 7 = .ok 7 :=
  convert_self_identity "Length" "Feet" 7
    (by simp [isUnitOf, CONVERSIONS, alookup])

/-- Claim C4: for every category, every pair of units `a`, `b` of that
category, and every value `v`, converting `v` from `a` to `b` and the result
back from `b` to `a` returns `v` exactly (in the exact rational
semantics). -/
theorem convert_round_trip (c a b : String) (v : ℚ)
    (ha : isUnitOf c a = true) (hb : isUnitOf c b = true) :
    ∃ w, convert c a b v = .ok w ∧ convert c b a w = .ok v := by
  by_cases hc : c = "Temperature"
  · subst hc
    rcases temp_unit_cases ha with rfl | rfl | rfl <;>
      rcases temp_unit_cases hb with rfl | rfl | rfl <;>
      refine ⟨_, convert_temp_step _ _ _, ?_⟩ <;>
      simp [convert, convertWith, convert_temperature]
  · unfold isUnitOf at ha hb
    cases hcl : alookup c CONVERSIONS with
    | none => simp [hcl] at ha
    | some us =>
      simp only [hcl] at ha hb
      cases hau : alookup a us with
      | none => simp [hau] at ha
      | some ea =>
        cases hbu : alookup b us with
        | none => simp [hbu] at hb
        | some eb =>
          cases ea with
          | tag s =>
            exact absurd
              (no_tag_of_mem (alookup_mem hcl) hc (alookup_mem hau)) not_false
          | factor f =>
            cases eb with
            | tag s =>
              exact absurd
                (no_tag_of_mem (alookup_mem hcl) hc (alookup_mem hbu))
                not_false
            | factor g =>
              have hf : 0 < f :=
                factor_pos_of_mem (alookup_mem hcl) (alookup_mem hau)
              have hg : 0 < g :=
                factor_pos_of_mem (alookup_mem hcl) (alookup_mem hbu)
              have hf' : f ≠ 0 := ne_of_gt hf
              have hg' : g ≠ 0 := ne_of_gt hg
              refine ⟨v * f / g, ?_, ?_⟩ <;>
                rw [convert, convertWith, if_neg hc] <;>
                simp only [hcl, hau, hbu, Except.ok.injEq]
              field_simp

/-- Witness for `convert_round_trip` at Temperature, Celsius and
Fahrenheit, `v = 25`. -/
theorem convert_round_trip_witness :
    ∃ w, convert "Temperature" "Celsius" "Fahrenheit" 25 = .ok w ∧
      convert "Temperature" "Fahrenheit" "Celsius" w = .ok 25 :=
  convert_round_trip "Temperature" "Celsius" "Fahrenheit" 25
    (by simp [isUnitOf, CONVERSIONS, alookup])
    (by simp [isUnitOf, CONVERSIONS, alookup])

/-- Claim C5: the five known fixed points of the specification hold, the
Pounds-to-Kilograms one exactly at the table's stored factor 0.453592. -/
theorem convert_fixed_points :
    convert "Length" "Kilometers" "Meters" 1 = .ok 1000 ∧
    convert "Weight/Mass" "Pounds" "Kilograms" 1 = .ok 0.453592 ∧
    convert "Temperature" "Celsius" "Fahrenheit" 100 = .ok 212 ∧
    convert "Temperature" "Fahrenheit" "Celsius" 32 = .ok 0 ∧
    convert "Temperature" "Celsius" "Kelvin" 0 = .ok 273.15 := by
  refine ⟨?_, ?_, ?_, ?_, ?_⟩
  · simp [convert, convertWith, CONVERSIONS, alookup]
  · simp [convert, convertWith, CONVERSIONS, alookup]
  · simp [convert, convertWith, convert_temperature]
    norm_num
  · simp [convert, convertWith, convert_temperature]
  · simp [convert, convertWith, convert_temperature]

/-- Claim C6, counterexample: at category Temperature with the unknown unit
"Furlongs", the specification's failure condition holds (the unit is absent
from the Temperature unit set), yet `convert` succeeds and returns the
input: the Temperature branch performs no table lookup at all. -/
theorem convert_notfound_counterexample :
    specNotFoundCond "Temperature" "Furlongs" "Meters" ∧
    convert "Temperature" "Furlongs" "Meters" 1 = .ok 1 := by
  constructor
  · simp [specNotFoundCond, CONVERSIONS, alookup]
  · simp [convert, convertWith, convert_temperature]

/-- Claim C6, amended: `convert` fails (necessarily with `NotFound`, the
only constructor of `ConvError`) exactly when the category is not
"Temperature" and the category or either unit is absent from the table; on
the Temperature category no lookup is performed and `convert` never fails,
whatever the unit names. -/
theorem convert_notfound_characterization (c a b : String) (v : ℚ) :
    convert c a b v = .error .NotFound ↔
      (c ≠ "Temperature" ∧ specNotFoundCond c a b) := by
  by_cases hc : c = "Temperature"
  · simp [convert, convertWith, hc]
  · rw [convert, convertWith, if_neg hc]
    unfold specNotFoundCond
    cases hcl : alookup c CONVERSIONS with
    | none => simp [hc]
    | some us =>
      cases hau : alookup a us with
      | none => simp [hc, hau]
      | some ea =>
        cases hbu : alookup b us with
        | none => cases ea <;> simp [hc, hau, hbu]
        | some eb =>
          cases ea with
          | tag s =>
            exact absurd
              (no_tag_of_mem (alookup_mem hcl) hc (alookup_mem hau)) not_false
          | factor f =>
            cases eb with
            | tag s =>
              exact absurd
                (no_tag_of_mem (alookup_mem hcl) hc (alookup_mem hbu))
                not_false
            | factor g => simp [hau, hbu]

/-- Claim C7: `categories` is exactly the 10 documented categories in table
order, `units "Length"` is exactly the 9 documented length units in table
order, and `units` fails with `NotFound` for any category absent from the
table. -/
theorem listing_categories_units :
    categories = ["Length", "Weight/Mass", "Temperature", "Area", "Volume",
        "Speed", "Time", "Digital Storage", "Energy", "Pressure"] ∧
    categories.length = 10 ∧
    units "Length" = .ok ["Meters", "Kilometers", "Centimeters",
        "Millimeters", "Miles", "Yards", "Feet", "Inches",
        "Nautical Miles"] ∧
    (∀ l, units "Length" = .ok l → l.length = 9) ∧
    (∀ c, alookup c CONVERSIONS = none → units c = .error .NotFound) := by
  refine ⟨by simp [categories, CONVERSIONS], by simp [categories, CONVERSIONS],
    ?_, ?_, ?_⟩
  · simp [units, CONVERSIONS, alookup]
  · intro l hl
    simp [units, CONVERSIONS, alookup] at hl
    simp [← hl]
  · intro c hcl
    simp [units, hcl]

/-- Witness for `listing_categories_units`: the absent category
"Imaginary" fails with `NotFound`. -/
theorem listing_categories_units_witness :
    units "Imaginary" = .error ConvError.NotFound :=
  listing_categories_units.2.2.2.2 "Imaginary" (by simp [CONVERSIONS, alookup])

/-- Claim C8: every linear (non-Temperature) category of the table has only
strictly positive scale factors and exactly one unit with factor 1 (the
base unit); and the table is immutable — the only stateful operation,
`convertApp`, returns its state unchanged (the table itself is a Lean
constant, never rebuilt after initialization). -/
theorem conversions_table_invariant :
    (CONVERSIONS.Forall (fun p => p.1 = "Temperature" ∨
      ((p.2.Forall (fun e => ∀ q, e.2 = UnitVal.factor q → 0 < q)) ∧
        (p.2.filter (fun e => decide (e.2 = UnitVal.factor 1))).length = 1))) ∧
    (∀ s c a b v, (convertApp s c a b v).1 = s) := by
  constructor
  · simp [CONVERSIONS, List.Forall, List.filter]
    norm_num
  · intro s c a b v
    rfl

/-- Claim C9: the conversion engine is pure and deterministic: as a
state-passing operation it leaves the state untouched, two invocations with
equal arguments against equal tables return equal results, and against the
initialized table it computes exactly `convert`. -/
theorem convert_pure_deterministic (s t : AppState) (c a b : String) (v : ℚ)
    (h : s.conversions = t.conversions) :
    (convertApp s c a b v).1 = s ∧
    (convertApp s c a b v).2 = (convertApp t c a b v).2 ∧
    (s.conversions = CONVERSIONS → (convertApp s c a b v).2 = convert c a b v) :=
  ⟨rfl, by simp [convertApp, h], fun h0 => by simp [convertApp, h0, convert]⟩

/-- Witness for `convert_pure_deterministic` at the startup state. -/
theorem convert_pure_deterministic_witness :
    (convertApp initState "Length" "Feet" "Inches" 2).1 = initState ∧
    (convertApp initState "Length" "Feet" "Inches" 2).2 =
      (convertApp initState "Length" "Feet" "Inches" 2).2 ∧
    (initState.conversions = CONVERSIONS →
      (convertApp initState "Length" "Feet" "Inches" 2).2 =
        convert "Length" "Feet" "Inches" 2) :=
  convert_pure_deterministic initState initState "Length" "Feet" "Inches" 2 rfl

/-- Claim C10: Temperature self-conversion from Celsius to Celsius returns
the input unchanged; both conjuncts hold by definitional unfolding (`rfl`),
showing the value flows through both steps with no arithmetic applied — so
the identity is exact in any arithmetic, floating point included. -/
theorem temperature_celsius_self_exact (v : ℚ) :
    convert "Temperature" "Celsius" "Celsius" v = .ok v ∧
    convert_temperature v "Celsius" "Celsius" = v :=
  ⟨rfl, rfl⟩

end UnitConverter
